import Mathlib

/-!
# revelio: request construction, dispatch and output formatting

A shallow embedding of `main.go` (package `main` of `mdjow/revelio`): the three
detection functions `runText`, `runLabel`, `runFace`, the flag accumulator
`arrayFlags` and `main`.  External collaborators (credential discovery, the
file system, the annotation service, `fmt`'s `%f` verb) are fields of a `World`
or parameters; the base64 codec of Go's `encoding/base64` is modelled below.
-/

namespace Revelio

/-! ## encoding/base64, `StdEncoding` -/

/-- A Go `byte`. -/
abbrev Byte := Fin 256

/-- The alphabet `encodeStd` of `encoding/base64`. -/
def encodeStd : List Char :=
  "ABCDEFGHIJKLMNOPQRSTUVWXYZabcdefghijklmnopqrstuvwxyz0123456789+/".toList

/-- The padding character `StdPadding`. -/
def padChar : Char := '='

/-- The table lookup `enc.encode[i]`. -/
def encodeChar (i : Nat) : Char := encodeStd.getD i 'A'

/-- The table lookup `enc.decodeMap[c]`; `none` stands for the entry `0xff`. -/
def decodeMap (c : Char) : Option Nat :=
  if encodeStd.indexOf c < 64 then some (encodeStd.indexOf c) else none

/-- The conversion `byte(x)` of an unsigned integer. -/
def toByte (x : Nat) : Byte := ⟨x % 256, Nat.mod_lt _ (by decide)⟩

/-- The loop of `Encoding.Encode`: full 3-byte groups become 4 characters, a
remaining block of 1 or 2 bytes becomes 2 or 3 characters followed by padding. -/
def encode : List Byte → List Char
  | a :: b :: c :: rest =>
    let val := a.val <<< 16 ||| b.val <<< 8 ||| c.val
    encodeChar (val >>> 18 &&& 0x3F) :: encodeChar (val >>> 12 &&& 0x3F) ::
      encodeChar (val >>> 6 &&& 0x3F) :: encodeChar (val &&& 0x3F) :: encode rest
  | [a, b] =>
    let val := a.val <<< 16 ||| b.val <<< 8
    [encodeChar (val >>> 18 &&& 0x3F), encodeChar (val >>> 12 &&& 0x3F),
      encodeChar (val >>> 6 &&& 0x3F), padChar]
  | [a] =>
    let val := a.val <<< 16
    [encodeChar (val >>> 18 &&& 0x3F), encodeChar (val >>> 12 &&& 0x3F), padChar, padChar]
  | [] => []

/-- The function `base64.StdEncoding.EncodeToString`. -/
def EncodeToString (src : List Byte) : String := String.mk (encode src)

/-- The quantum loop of `Encoding.Decode` on input without line breaks: four
characters give three bytes; padding may only close the last quantum.  `none`
stands for a `CorruptInputError`. -/
def decodeQuanta : List Char → Option (List Byte)
  | [] => some []
  | c0 :: c1 :: c2 :: c3 :: rest =>
    match decodeMap c0, decodeMap c1 with
    | some d0, some d1 =>
      match decodeMap c2 with
      | some d2 =>
        match decodeMap c3 with
        | some d3 =>
          let val := d0 <<< 18 ||| d1 <<< 12 ||| d2 <<< 6 ||| d3
          match decodeQuanta rest with
          | some tl => some (toByte (val >>> 16) :: toByte (val >>> 8) :: toByte val :: tl)
          | none => none
        | none =>
          if c3 = padChar ∧ rest = [] then
            let val := d0 <<< 18 ||| d1 <<< 12 ||| d2 <<< 6
            some [toByte (val >>> 16), toByte (val >>> 8)]
          else none
      | none =>
        if c2 = padChar ∧ c3 = padChar ∧ rest = [] then
          let val := d0 <<< 18 ||| d1 <<< 12
          some [toByte (val >>> 16)]
        else none
    | _, _ => none
  | _ => none

/-- The function `base64.StdEncoding.DecodeString`: carriage returns and line
feeds are ignored, the rest is decoded quantum by quantum. -/
def DecodeString (s : String) : Option (List Byte) :=
  decodeQuanta (s.toList.filter (fun c => !(c == '\n' || c == '\r')))

/-! ## strings.TrimSpace -/

/-- The predicate `unicode.IsSpace`: the Latin-1 spaces and the code points of
the Unicode `White_Space` property. -/
def isSpace (c : Char) : Bool :=
  c.toNat == 0x09 || c.toNat == 0x0A || c.toNat == 0x0B || c.toNat == 0x0C || c.toNat == 0x0D ||
  c.toNat == 0x20 || c.toNat == 0x85 || c.toNat == 0xA0 || c.toNat == 0x1680 ||
  (0x2000 ≤ c.toNat && c.toNat ≤ 0x200A) || c.toNat == 0x2028 || c.toNat == 0x2029 ||
  c.toNat == 0x202F || c.toNat == 0x205F || c.toNat == 0x3000

/-- The function `strings.TrimSpace`: all leading and trailing white space removed. -/
def TrimSpace (s : String) : String :=
  String.mk ((s.toList.dropWhile isSpace).reverse.dropWhile isSpace).reverse

/-! ## Data model (package `vision/v1p2beta1`, as far as `main.go` uses it)

Pointers to structs and slices of such pointers are modelled by the structs
they point to: no entry of a response is a nil pointer. -/

/-- A Go `error` value; the field is the result of its `Error()` method. -/
structure GoError where
  Error : String
deriving DecidableEq, Repr

/-- A Go `float64`, by its IEEE-754 bit pattern. -/
abbrev Float64 := Fin 18446744073709551616

/-- The struct `GoogleCloudVisionV1p2beta1EntityAnnotation`. -/
structure EntityAnnotation where
  Description : String
  Score : Float64
deriving DecidableEq, Repr

/-- The struct `GoogleCloudVisionV1p2beta1FaceAnnotation`. -/
structure FaceAnnotation where
  AngerLikelihood : String
  JoyLikelihood : String
  SurpriseLikelihood : String
deriving DecidableEq, Repr

/-- The struct `GoogleCloudVisionV1p2beta1AnnotateImageResponse`. -/
structure AnnotateImageResponse where
  LabelAnnotations : List EntityAnnotation
  TextAnnotations : List EntityAnnotation
  FaceAnnotations : List FaceAnnotation
deriving DecidableEq, Repr

/-- The struct `GoogleCloudVisionV1p2beta1BatchAnnotateImagesResponse`. -/
structure BatchAnnotateImagesResponse where
  Responses : List AnnotateImageResponse
deriving DecidableEq, Repr

/-- The struct `GoogleCloudVisionV1p2beta1Feature`; `Typ` is its field `Type`.
A field left out of a composite literal has the zero value. -/
structure Feature where
  Typ : String
  MaxResults : Int := 0
deriving DecidableEq, Repr

/-- The struct `GoogleCloudVisionV1p2beta1Image`. -/
structure Image where
  Content : String
deriving DecidableEq, Repr

/-- The struct `GoogleCloudVisionV1p2beta1AnnotateImageRequest`. -/
structure AnnotateImageRequest where
  Image : Image
  Features : List Feature
deriving DecidableEq, Repr

/-- The struct `GoogleCloudVisionV1p2beta1BatchAnnotateImagesRequest`. -/
structure BatchAnnotateImagesRequest where
  Requests : List AnnotateImageRequest
deriving DecidableEq, Repr

/-- The external collaborators of one process run: credential discovery
(`google.DefaultClient`), service construction (`vision.New`), the file system
(`ioutil.ReadFile`) and the remote call (`service.Images.Annotate(batch).Do()`). -/
structure World where
  DefaultClient : Except GoError Unit
  New : Except GoError Unit
  ReadFile : String → Except GoError (List Byte)
  Do : BatchAnnotateImagesRequest → Except GoError BatchAnnotateImagesResponse

/-- The three detection functions, as names. -/
inductive Detector where
  | runText
  | runLabel
  | runFace
deriving DecidableEq, Repr

/-- What a run has done so far: the writes to standard output and to standard
error, the paths handed to `ioutil.ReadFile`, the batches handed to the
service, and the detection functions called with their argument. -/
structure Trace where
  stdout : List String := []
  stderr : List String := []
  reads : List String := []
  submitted : List BatchAnnotateImagesRequest := []
  invoked : List (Detector × String) := []
deriving DecidableEq, Repr

/-- The call `fmt.Printf`, with the formatted text. -/
def Trace.Printf (t : Trace) (s : String) : Trace := { t with stdout := t.stdout ++ [s] }

/-- The call `fmt.Fprintf(os.Stderr, ...)`, with the formatted text. -/
def Trace.Fprintf (t : Trace) (s : String) : Trace := { t with stderr := t.stderr ++ [s] }

/-- How a detection function ends: it returns an `error` (possibly `nil`), or
a run-time panic unwinds it. -/
inductive Outcome where
  | returned (err : Option GoError)
  | panicked
deriving DecidableEq, Repr

/-! ## The detection functions -/

/-- The loop `for i := 0; i < len(annotations); i++` of `runLabel`.  The verb
`%f` of package `fmt` is the parameter `fmtF`. -/
def runLabel.loop (fmtF : Float64 → String) (file : String)
    (annotations : List EntityAnnotation) (i : Nat) (t : Trace) : Trace :=
  if h : i < annotations.length then
    let label := (annotations.get ⟨i, h⟩).Description
    let score := (annotations.get ⟨i, h⟩).Score
    runLabel.loop fmtF file annotations (i + 1)
      (t.Printf ("Found label: " ++ label ++ ", Score: " ++ fmtF score ++ " for " ++ file ++ "\n"))
  else t
termination_by annotations.length - i

/-- The function `runLabel`. -/
def runLabel (fmtF : Float64 → String) (w : World) (file : String) (t : Trace) :
    Outcome × Trace :=
  match w.DefaultClient with
  | .error err => (.returned (some err), t)
  | .ok _ =>
  match w.New with
  | .error err => (.returned (some err), t)
  | .ok _ =>
  let t := { t with reads := t.reads ++ [file] }
  match w.ReadFile file with
  | .error err => (.returned (some err), t)
  | .ok b =>
  let req : AnnotateImageRequest :=
    { Image := { Content := EncodeToString b },
      Features := [{ Typ := "LABEL_DETECTION", MaxResults := 5 }] }
  let batch : BatchAnnotateImagesRequest := { Requests := [req] }
  let t := { t with submitted := t.submitted ++ [batch] }
  match w.Do batch with
  | .error err => (.returned (some err), t)
  | .ok res =>
  match res.Responses with
  | [] => (.panicked, t)
  | r0 :: _ =>
    let annotations := r0.LabelAnnotations
    if annotations.length > 0 then
      (.returned none, runLabel.loop fmtF file annotations 0 t)
    else
      (.returned none, t.Printf ("Not found label: " ++ file ++ "\n"))

/-- The function `runText`. -/
def runText (w : World) (file : String) (t : Trace) : Outcome × Trace :=
  match w.DefaultClient with
  | .error err => (.returned (some err), t)
  | .ok _ =>
  match w.New with
  | .error err => (.returned (some err), t)
  | .ok _ =>
  let t := { t with reads := t.reads ++ [file] }
  match w.ReadFile file with
  | .error err => (.returned (some err), t)
  | .ok b =>
  let req : AnnotateImageRequest :=
    { Image := { Content := EncodeToString b },
      Features := [{ Typ := "TEXT_DETECTION" }] }
  let batch : BatchAnnotateImagesRequest := { Requests := [req] }
  let t := { t with submitted := t.submitted ++ [batch] }
  match w.Do batch with
  | .error err => (.returned (some err), t)
  | .ok res =>
  match res.Responses with
  | [] => (.panicked, t)
  | r0 :: _ =>
    match r0.TextAnnotations with
    | a0 :: _ =>
      let text := a0.Description
      (.returned none, t.Printf ("Found text: " ++ text ++ "\n"))
    | [] =>
      (.returned none, t.Printf ("Not found text in: " ++ file ++ "\n"))

/-- The loop `for i, annotation := range annotations` of `runFace`; the verb
`%d` prints the decimal digits of `face`. -/
def runFace.loop : Nat → List FaceAnnotation → Trace → Trace
  | _, [], t => t
  | i, annotation :: rest, t =>
    let face := i + 1
    let anger := annotation.AngerLikelihood
    let joy := annotation.JoyLikelihood
    let surprise := annotation.SurpriseLikelihood
    runFace.loop (i + 1) rest
      (t.Printf ("Found Face: " ++ toString face ++ ", Anger: " ++ anger ++ " Joy " ++ joy
        ++ " Surprise " ++ surprise ++ "\n"))

/-- The function `runFace`. -/
def runFace (w : World) (file : String) (t : Trace) : Outcome × Trace :=
  match w.DefaultClient with
  | .error err => (.returned (some err), t)
  | .ok _ =>
  match w.New with
  | .error err => (.returned (some err), t)
  | .ok _ =>
  let t := { t with reads := t.reads ++ [file] }
  match w.ReadFile file with
  | .error err => (.returned (some err), t)
  | .ok b =>
  let req : AnnotateImageRequest :=
    { Image := { Content := EncodeToString b },
      Features := [{ Typ := "FACE_DETECTION", MaxResults := 5 }] }
  let batch : BatchAnnotateImagesRequest := { Requests := [req] }
  let t := { t with submitted := t.submitted ++ [batch] }
  match w.Do batch with
  | .error err => (.returned (some err), t)
  | .ok res =>
  match res.Responses with
  | [] => (.panicked, t)
  | r0 :: _ =>
    let annotations := r0.FaceAnnotations
    if annotations.length > 0 then
      (.returned none, runFace.loop 0 annotations t)
    else
      (.returned none, t.Printf ("Not found faces: " ++ file ++ "\n"))

/-! ## Flags and `main` -/

/-- The type `arrayFlags`; the nil slice is `[]` (a slice built by `append`
alone is nil exactly when it is empty). -/
abbrev arrayFlags := List String

/-- The method `(*arrayFlags).Set`: the new value of `*out` and the returned error. -/
def arrayFlags.Set (out : arrayFlags) (value : String) : arrayFlags × Option GoError :=
  (out ++ [TrimSpace value], none)

/-- The two flags registered with `flag.Var`. -/
inductive FlagName where
  | img
  | revelio
deriving DecidableEq, Repr

/-- The package-level variables `img` and `revelio`. -/
structure Globals where
  img : arrayFlags := []
  revelio : arrayFlags := []
deriving DecidableEq, Repr

/-- The call `flag.Parse()` on a command line of `-img` and `-revelio`
occurrences: `Set` is called once per occurrence, in order, and parsing stops
at the first `Set` that returns an error. -/
def flagParse : List (FlagName × String) → Globals → Except GoError Globals
  | [], g => .ok g
  | (.img, value) :: rest, g =>
    match arrayFlags.Set g.img value with
    | (out, none) => flagParse rest { g with img := out }
    | (_, some err) => .error err
  | (.revelio, value) :: rest, g =>
    match arrayFlags.Set g.revelio value with
    | (out, none) => flagParse rest { g with revelio := out }
    | (_, some err) => .error err

/-- The constant `text`. -/
def text : String := "text"

/-- The constant `label`. -/
def label : String := "label"

/-- The constant `face`. -/
def face : String := "face"

/-- How the process ends: with an exit status (`os.Exit`, or 0 when `main`
returns), or by an uncaught run-time panic. -/
inductive Status where
  | exited (code : Nat)
  | panicked
deriving DecidableEq, Repr

/-- The exit status the operating system sees; the Go run time ends a
panicking program with status 2. -/
def Status.code : Status → Nat
  | .exited code => code
  | .panicked => 2

/-- The result of one process run. -/
structure Exit where
  status : Status
  trace : Trace
deriving DecidableEq, Repr

/-- What each `case` of the `switch` in `main` does with the result of its
detection function: `if err != nil` it writes `err.Error()` and a newline to
standard error and calls `os.Exit(1)`; otherwise `main` returns. -/
def afterRun : Outcome × Trace → Exit
  | (.returned (some err), t) => { status := .exited 1, trace := t.Fprintf (err.Error ++ "\n") }
  | (.returned none, t) => { status := .exited 0, trace := t }
  | (.panicked, t) => { status := .panicked, trace := t }

/-- The function `main`.  `prog` is `filepath.Base(os.Args[0])`, `args` the
flag occurrences of the command line.  A failing `Set` makes package `flag`
(`ExitOnError`) report it, print the usage and exit with status 2. -/
def main (fmtF : Float64 → String) (w : World) (prog : String)
    (args : List (FlagName × String)) : Exit :=
  let Usage := "Usage: go run " ++ prog ++ " <path-to-image> <revelio>\n"
  match flagParse args {} with
  | .error err =>
    { status := .exited 2, trace := { stderr := [err.Error ++ "\n", Usage] } }
  | .ok g =>
    if g.img = [] ∨ g.revelio = [] then
      { status := .exited 1, trace := { stderr := [Usage] } }
    else
      match g.revelio[0]? with
      | none => { status := .panicked, trace := {} }
      | some r0 =>
        if r0 = text then
          match g.img[0]? with
          | none => { status := .panicked, trace := {} }
          | some i0 => afterRun (runText w i0 { invoked := [(.runText, i0)] })
        else if r0 = label then
          match g.img[0]? with
          | none => { status := .panicked, trace := {} }
          | some i0 => afterRun (runLabel fmtF w i0 { invoked := [(.runLabel, i0)] })
        else if r0 = face then
          match g.img[0]? with
          | none => { status := .panicked, trace := {} }
          | some i0 => afterRun (runFace w i0 { invoked := [(.runFace, i0)] })
        else
          { status := .exited 0, trace := { stderr := ["err\n"] } }

/-! ## Sample inputs -/

/-- A rendering of scores for the examples: the bit pattern in decimal. -/
def fmtBits : Float64 → String := fun x => toString x.val

/-- A world with credentials and a readable file, whose service answers `res`. -/
def worldWith (res : BatchAnnotateImagesResponse) : World where
  DefaultClient := .ok ()
  New := .ok ()
  ReadFile := fun _ => .ok [137, 80, 78, 71]
  Do := fun _ => .ok res

/-- A world with credentials in which no file can be read. -/
def worldMissingFile : World where
  DefaultClient := .ok ()
  New := .ok ()
  ReadFile := fun _ => .error ⟨"open missing.png: no such file or directory"⟩
  Do := fun _ => .ok ⟨[]⟩

/-- A world without credentials in which no file can be read. -/
def worldNoCredentials : World where
  DefaultClient := .error ⟨"google: could not find default credentials"⟩
  New := .ok ()
  ReadFile := fun _ => .error ⟨"open missing.png: no such file or directory"⟩
  Do := fun _ => .ok ⟨[]⟩

/-- A response with two labels, two text entries and two faces. -/
def sampleResponse : BatchAnnotateImagesResponse :=
  ⟨[⟨[⟨"cat", 5⟩, ⟨"pet", 6⟩], [⟨"hello world", 0⟩, ⟨"hello", 0⟩],
    [⟨"UNLIKELY", "LIKELY", "POSSIBLE"⟩, ⟨"VERY_UNLIKELY", "VERY_LIKELY", "UNLIKELY"⟩]⟩]⟩

/-! ### Codec lemmas -/

theorem decodeMap_encodeChar_fin : ∀ i : Fin 64, decodeMap (encodeChar i.val) = some i.val := by
  decide

theorem decodeMap_encodeChar (i : Nat) (h : i < 64) : decodeMap (encodeChar i) = some i :=
  decodeMap_encodeChar_fin ⟨i, h⟩

theorem decodeMap_padChar : decodeMap padChar = none := by decide

theorem encodeChar_not_newline_fin :
    ∀ i : Fin 64, (!(encodeChar i.val == '\n' || encodeChar i.val == '\r')) = true := by
  decide

theorem encodeChar_not_newline (i : Nat) (h : i < 64) :
    (!(encodeChar i == '\n' || encodeChar i == '\r')) = true :=
  encodeChar_not_newline_fin ⟨i, h⟩

theorem padChar_not_newline : (!(padChar == '\n' || padChar == '\r')) = true := by decide

theorem or_shift3 (a b c : Nat) (hb : b < 256) (hc : c < 256) :
    a <<< 16 ||| b <<< 8 ||| c = a * 65536 + b * 256 + c := by
  have h1 : b <<< 8 ||| c = 2 ^ 8 * b + c := by
    rw [Nat.shiftLeft_eq, Nat.mul_comm]; exact (Nat.mul_add_lt_is_or (by omega) b).symm
  have h2 : a <<< 16 ||| (2 ^ 8 * b + c) = 2 ^ 16 * a + (2 ^ 8 * b + c) := by
    rw [Nat.shiftLeft_eq, Nat.mul_comm]; exact (Nat.mul_add_lt_is_or (by omega) a).symm
  rw [Nat.or_assoc, h1, h2]; omega

theorem or_shift4 (a b c d : Nat) (hb : b < 64) (hc : c < 64) (hd : d < 64) :
    a <<< 18 ||| b <<< 12 ||| c <<< 6 ||| d = a * 262144 + b * 4096 + c * 64 + d := by
  have h1 : c <<< 6 ||| d = 2 ^ 6 * c + d := by
    rw [Nat.shiftLeft_eq, Nat.mul_comm]; exact (Nat.mul_add_lt_is_or (by omega) c).symm
  have h2 : b <<< 12 ||| (2 ^ 6 * c + d) = 2 ^ 12 * b + (2 ^ 6 * c + d) := by
    rw [Nat.shiftLeft_eq, Nat.mul_comm]; exact (Nat.mul_add_lt_is_or (by omega) b).symm
  have h3 : a <<< 18 ||| (2 ^ 12 * b + (2 ^ 6 * c + d))
      = 2 ^ 18 * a + (2 ^ 12 * b + (2 ^ 6 * c + d)) := by
    rw [Nat.shiftLeft_eq, Nat.mul_comm]; exact (Nat.mul_add_lt_is_or (by omega) a).symm
  rw [Nat.or_assoc, Nat.or_assoc, h1, h2, h3]; omega

theorem and_mask6 (x : Nat) : x &&& 0x3F = x % 64 := Nat.and_pow_two_sub_one_eq_mod x 6

theorem mask6_lt (x : Nat) : x &&& 0x3F < 64 := by
  rw [and_mask6]; exact Nat.mod_lt _ (by decide)

/-- Splitting a 24-bit value into four sextets and reassembling them is the identity. -/
theorem regroup (v : Nat) (h : v < 16777216) :
    (v >>> 18 &&& 0x3F) <<< 18 ||| (v >>> 12 &&& 0x3F) <<< 12 ||| (v >>> 6 &&& 0x3F) <<< 6
      ||| (v &&& 0x3F) = v := by
  rw [or_shift4 _ _ _ _ (mask6_lt _) (mask6_lt _) (mask6_lt _)]
  simp only [and_mask6, Nat.shiftRight_eq_div_pow]
  omega

theorem bytes_of_val (a b c : Byte) :
    toByte ((a.val <<< 16 ||| b.val <<< 8 ||| c.val) >>> 16) = a ∧
    toByte ((a.val <<< 16 ||| b.val <<< 8 ||| c.val) >>> 8) = b ∧
    toByte (a.val <<< 16 ||| b.val <<< 8 ||| c.val) = c := by
  have ha := a.isLt
  have hb := b.isLt
  have hc := c.isLt
  rw [or_shift3 _ _ _ hb hc]
  simp only [toByte, Nat.shiftRight_eq_div_pow]
  refine ⟨Fin.ext ?_, Fin.ext ?_, Fin.ext ?_⟩ <;> simp only [] <;> omega

theorem val_lt (a b c : Byte) : a.val <<< 16 ||| b.val <<< 8 ||| c.val < 16777216 := by
  have ha := a.isLt
  have hb := b.isLt
  have hc := c.isLt
  rw [or_shift3 _ _ _ hb hc]; omega

/-- One full quantum: the four characters of a 3-byte group decode to the group. -/
theorem decodeQuanta_full (a b c : Byte) (rest : List Char) :
    decodeQuanta (encode [a, b, c] ++ rest)
      = (decodeQuanta rest).map (fun tl => a :: b :: c :: tl) := by
  obtain ⟨h1, h2, h3⟩ := bytes_of_val a b c
  simp only [encode, List.cons_append, List.nil_append, decodeQuanta,
    decodeMap_encodeChar _ (mask6_lt _), regroup _ (val_lt a b c), h1, h2, h3]
  have hnil : ([] : List Char).append rest = rest := rfl
  rw [hnil]
  cases decodeQuanta rest <;> rfl

theorem or_shift2 (a b : Nat) (hb : b < 256) :
    a <<< 16 ||| b <<< 8 = a * 65536 + b * 256 := by
  have h := or_shift3 a b 0 hb (by decide)
  rw [Nat.or_zero] at h
  rw [h, Nat.add_zero]

/-- The closing quantum of a 2-byte block. -/
theorem decodeQuanta_two (a b : Byte) : decodeQuanta (encode [a, b]) = some [a, b] := by
  have ha := a.isLt
  have hb := b.isLt
  have hv := or_shift2 a.val b.val hb
  have hr := regroup (a.val <<< 16 ||| b.val <<< 8) (by rw [hv]; omega)
  have h0 : (a.val <<< 16 ||| b.val <<< 8) &&& 0x3F = 0 := by
    rw [hv, and_mask6]; omega
  rw [h0, Nat.or_zero] at hr
  have h1 : toByte ((a.val <<< 16 ||| b.val <<< 8) >>> 16) = a := by
    rw [hv]; simp only [toByte, Nat.shiftRight_eq_div_pow]
    exact Fin.ext (by simp only []; omega)
  have h2 : toByte ((a.val <<< 16 ||| b.val <<< 8) >>> 8) = b := by
    rw [hv]; simp only [toByte, Nat.shiftRight_eq_div_pow]
    exact Fin.ext (by simp only []; omega)
  simp only [encode, decodeQuanta, decodeMap_encodeChar _ (mask6_lt _), decodeMap_padChar,
    hr, h1, h2, and_self, if_true]

/-- The closing quantum of a 1-byte block. -/
theorem decodeQuanta_one (a : Byte) : decodeQuanta (encode [a]) = some [a] := by
  have ha := a.isLt
  have hv : ((a.val <<< 16) >>> 18 &&& 0x3F) <<< 18 ||| ((a.val <<< 16) >>> 12 &&& 0x3F) <<< 12
      = a.val * 65536 := by
    have := or_shift4 ((a.val <<< 16) >>> 18 &&& 0x3F) ((a.val <<< 16) >>> 12 &&& 0x3F) 0 0
      (mask6_lt _) (by decide) (by decide)
    simp only [Nat.zero_shiftLeft, Nat.or_zero] at this
    rw [this]
    simp only [and_mask6, Nat.shiftRight_eq_div_pow, Nat.shiftLeft_eq]
    omega
  have hb : toByte ((a.val * 65536) >>> 16) = a := by
    simp only [toByte, Nat.shiftRight_eq_div_pow]
    exact Fin.ext (by simp only []; omega)
  simp only [encode, decodeQuanta, decodeMap_encodeChar _ (mask6_lt _), decodeMap_padChar, hv,
    hb, and_self, if_true]

theorem encode_cons3 (a b c : Byte) (rest : List Byte) :
    encode (a :: b :: c :: rest) = encode [a, b, c] ++ encode rest := by
  simp [encode]

/-- Decoding the quanta produced by `encode` gives back the bytes. -/
theorem decodeQuanta_encode : ∀ src : List Byte, decodeQuanta (encode src) = some src
  | a :: b :: c :: rest => by
    rw [encode_cons3, decodeQuanta_full, decodeQuanta_encode rest]; rfl
  | [a, b] => decodeQuanta_two a b
  | [a] => decodeQuanta_one a
  | [] => by simp [encode, decodeQuanta]

/-- No character produced by `encode` is a carriage return or a line feed. -/
theorem filter_encode : ∀ src : List Byte,
    (encode src).filter (fun c => !(c == '\n' || c == '\r')) = encode src
  | a :: b :: c :: rest => by
    simp only [encode, List.filter_cons, encodeChar_not_newline _ (mask6_lt _), if_true,
      filter_encode rest]
  | [a, b] => by
    simp only [encode, List.filter_cons, encodeChar_not_newline _ (mask6_lt _),
      padChar_not_newline, if_true, List.filter_nil]
  | [a] => by
    simp only [encode, List.filter_cons, encodeChar_not_newline _ (mask6_lt _),
      padChar_not_newline, if_true, List.filter_nil]
  | [] => by simp [encode]

theorem DecodeString_EncodeToString (src : List Byte) :
    DecodeString (EncodeToString src) = some src := by
  simp only [DecodeString, EncodeToString, String.toList, filter_encode, decodeQuanta_encode]

/-! ## Lemmas on the detection functions -/

/-- The index loop of `runLabel` prints one line per remaining annotation. -/
theorem runLabel_loop_from (fmtF : Float64 → String) (file : String)
    (annotations : List EntityAnnotation) :
    ∀ (k i : Nat) (t : Trace), annotations.length - i = k →
      runLabel.loop fmtF file annotations i t =
        { t with stdout := t.stdout ++ (annotations.drop i).map (fun a =>
            "Found label: " ++ a.Description ++ ", Score: " ++ fmtF a.Score ++ " for " ++ file
              ++ "\n") } := by
  intro k
  induction k with
  | zero =>
    intro i t h
    have hi : ¬ i < annotations.length := by omega
    rw [runLabel.loop, dif_neg hi, List.drop_eq_nil_of_le (by omega)]
    simp
  | succ k ih =>
    intro i t h
    have hi : i < annotations.length := by omega
    rw [runLabel.loop, dif_pos hi]
    simp only []
    rw [ih (i + 1) _ (by omega)]
    have hd := List.drop_eq_getElem_cons hi
    simp only [List.get_eq_getElem, Trace.Printf, hd, List.map_cons, List.append_assoc,
      List.singleton_append]

theorem runLabel_loop_eq (fmtF : Float64 → String) (file : String)
    (annotations : List EntityAnnotation) (t : Trace) :
    runLabel.loop fmtF file annotations 0 t =
      { t with stdout := t.stdout ++ annotations.map (fun a =>
          "Found label: " ++ a.Description ++ ", Score: " ++ fmtF a.Score ++ " for " ++ file
            ++ "\n") } := by
  rw [runLabel_loop_from fmtF file annotations _ 0 t rfl, List.drop_zero]

/-- The range loop of `runFace` prints one numbered line per annotation. -/
theorem runFace_loop_eq : ∀ (annotations : List FaceAnnotation) (i : Nat) (t : Trace),
    runFace.loop i annotations t =
      { t with stdout := t.stdout ++ (annotations.enumFrom i).map (fun p =>
          "Found Face: " ++ toString (p.1 + 1) ++ ", Anger: " ++ p.2.AngerLikelihood ++ " Joy "
            ++ p.2.JoyLikelihood ++ " Surprise " ++ p.2.SurpriseLikelihood ++ "\n") }
  | [], i, t => by simp [runFace.loop]
  | a :: rest, i, t => by
    rw [runFace.loop]
    rw [runFace_loop_eq rest (i + 1)]
    simp [Trace.Printf, List.enumFrom]

theorem runText_success (w : World) (file : String) (t : Trace) (b : List Byte)
    (res : BatchAnnotateImagesResponse) (r0 : AnnotateImageResponse)
    (rest : List AnnotateImageResponse)
    (hc : w.DefaultClient = .ok ()) (hn : w.New = .ok ()) (hr : w.ReadFile file = .ok b)
    (hd : w.Do ⟨[⟨⟨EncodeToString b⟩, [⟨"TEXT_DETECTION", 0⟩]⟩]⟩ = .ok res)
    (hres : res.Responses = r0 :: rest) :
    runText w file t =
      (.returned none,
        match r0.TextAnnotations with
        | a0 :: _ =>
          { stdout := t.stdout ++ ["Found text: " ++ a0.Description ++ "\n"], stderr := t.stderr,
            reads := t.reads ++ [file],
            submitted := t.submitted ++ [⟨[⟨⟨EncodeToString b⟩, [⟨"TEXT_DETECTION", 0⟩]⟩]⟩],
            invoked := t.invoked }
        | [] =>
          { stdout := t.stdout ++ ["Not found text in: " ++ file ++ "\n"], stderr := t.stderr,
            reads := t.reads ++ [file],
            submitted := t.submitted ++ [⟨[⟨⟨EncodeToString b⟩, [⟨"TEXT_DETECTION", 0⟩]⟩]⟩],
            invoked := t.invoked }) := by
  simp only [runText, hc, hn, hr, hd, hres]
  cases r0.TextAnnotations <;> rfl

theorem runLabel_success (fmtF : Float64 → String) (w : World) (file : String) (t : Trace)
    (b : List Byte) (res : BatchAnnotateImagesResponse) (r0 : AnnotateImageResponse)
    (rest : List AnnotateImageResponse)
    (hc : w.DefaultClient = .ok ()) (hn : w.New = .ok ()) (hr : w.ReadFile file = .ok b)
    (hd : w.Do ⟨[⟨⟨EncodeToString b⟩, [⟨"LABEL_DETECTION", 5⟩]⟩]⟩ = .ok res)
    (hres : res.Responses = r0 :: rest) :
    runLabel fmtF w file t =
      (.returned none,
        { stdout := t.stdout ++
            (if r0.LabelAnnotations = [] then ["Not found label: " ++ file ++ "\n"]
             else r0.LabelAnnotations.map (fun a => "Found label: " ++ a.Description
               ++ ", Score: " ++ fmtF a.Score ++ " for " ++ file ++ "\n")),
          stderr := t.stderr, reads := t.reads ++ [file],
          submitted := t.submitted ++ [⟨[⟨⟨EncodeToString b⟩, [⟨"LABEL_DETECTION", 5⟩]⟩]⟩],
          invoked := t.invoked }) := by
  simp only [runLabel, hc, hn, hr, hd, hres, runLabel_loop_eq]
  cases h : r0.LabelAnnotations <;> simp [Trace.Printf]

theorem runFace_success (w : World) (file : String) (t : Trace)
    (b : List Byte) (res : BatchAnnotateImagesResponse) (r0 : AnnotateImageResponse)
    (rest : List AnnotateImageResponse)
    (hc : w.DefaultClient = .ok ()) (hn : w.New = .ok ()) (hr : w.ReadFile file = .ok b)
    (hd : w.Do ⟨[⟨⟨EncodeToString b⟩, [⟨"FACE_DETECTION", 5⟩]⟩]⟩ = .ok res)
    (hres : res.Responses = r0 :: rest) :
    runFace w file t =
      (.returned none,
        { stdout := t.stdout ++
            (if r0.FaceAnnotations = [] then ["Not found faces: " ++ file ++ "\n"]
             else r0.FaceAnnotations.enum.map (fun p => "Found Face: " ++ toString (p.1 + 1)
               ++ ", Anger: " ++ p.2.AngerLikelihood ++ " Joy " ++ p.2.JoyLikelihood
               ++ " Surprise " ++ p.2.SurpriseLikelihood ++ "\n")),
          stderr := t.stderr, reads := t.reads ++ [file],
          submitted := t.submitted ++ [⟨[⟨⟨EncodeToString b⟩, [⟨"FACE_DETECTION", 5⟩]⟩]⟩],
          invoked := t.invoked }) := by
  simp only [runFace, hc, hn, hr, hd, hres, runFace_loop_eq]
  cases h : r0.FaceAnnotations <;> simp [Trace.Printf, List.enum]

/-! ## Lemmas on flag parsing and `main` -/

/-- The values `flag.Parse` appends to the list of flag `n`. -/
theorem flagParse_eq : ∀ (args : List (FlagName × String)) (g : Globals),
    flagParse args g = .ok
      { img := g.img ++ args.filterMap (fun a =>
          if a.1 = FlagName.img then some (TrimSpace a.2) else none),
        revelio := g.revelio ++ args.filterMap (fun a =>
          if a.1 = FlagName.revelio then some (TrimSpace a.2) else none) }
  | [], g => by simp [flagParse]
  | (.img, value) :: rest, g => by
    simp [flagParse, arrayFlags.Set, flagParse_eq rest]
  | (.revelio, value) :: rest, g => by
    simp [flagParse, arrayFlags.Set, flagParse_eq rest]

theorem collected_head (n : FlagName) : ∀ args : List (FlagName × String),
    (args.filterMap (fun a => if a.1 = n then some (TrimSpace a.2) else none))[0]?
      = (args.find? (fun a => a.1 == n)).map (fun a => TrimSpace a.2)
  | [] => by simp
  | a :: rest => by
    by_cases h : a.1 = n
    · simp [List.filterMap_cons, List.find?_cons, h]
    · simp [List.filterMap_cons, List.find?_cons, h, collected_head n rest]

theorem collected_nil (n : FlagName) (args : List (FlagName × String)) :
    args.filterMap (fun a => if a.1 = n then some (TrimSpace a.2) else none) = []
      ↔ ∀ a ∈ args, a.1 ≠ n := by
  induction args with
  | nil => simp
  | cons a rest ih =>
    by_cases h : a.1 = n
    · simp [List.filterMap_cons, h]
    · simp [List.filterMap_cons, h, ih]

/-- The body of `main` once the flags are collected and both lists have a first element. -/
theorem main_dispatch (fmtF : Float64 → String) (w : World) (prog : String)
    (args : List (FlagName × String)) (g : Globals) (i0 r0 : String)
    (hp : flagParse args {} = .ok g) (hi : g.img[0]? = some i0)
    (hr : g.revelio[0]? = some r0) :
    main fmtF w prog args =
      if r0 = text then afterRun (runText w i0 { invoked := [(.runText, i0)] })
      else if r0 = label then afterRun (runLabel fmtF w i0 { invoked := [(.runLabel, i0)] })
      else if r0 = face then afterRun (runFace w i0 { invoked := [(.runFace, i0)] })
      else { status := .exited 0, trace := { stderr := ["err\n"] } } := by
  have h1 : g.img ≠ [] := by
    intro h; rw [h] at hi; simp at hi
  have h2 : g.revelio ≠ [] := by
    intro h; rw [h] at hr; simp at hr
  simp only [main, hp, h1, h2, or_self, if_false, hi, hr]

theorem afterRun_invoked (p : Outcome × Trace) : (afterRun p).trace.invoked = p.2.invoked := by
  rcases p with ⟨o, t⟩
  rcases o with (_ | e) | _ <;> rfl

theorem afterRun_submitted (p : Outcome × Trace) :
    (afterRun p).trace.submitted = p.2.submitted := by
  rcases p with ⟨o, t⟩
  rcases o with (_ | e) | _ <;> rfl

theorem runText_invoked (w : World) (file : String) (t : Trace) :
    (runText w file t).2.invoked = t.invoked := by
  simp only [runText]
  repeat' split
  all_goals rfl

theorem runLabel_invoked (fmtF : Float64 → String) (w : World) (file : String) (t : Trace) :
    (runLabel fmtF w file t).2.invoked = t.invoked := by
  simp only [runLabel, runLabel_loop_eq]
  repeat' split
  all_goals rfl

theorem runFace_invoked (w : World) (file : String) (t : Trace) :
    (runFace w file t).2.invoked = t.invoked := by
  simp only [runFace, runFace_loop_eq]
  repeat' split
  all_goals rfl

/-- The collected lists in terms of the command line. -/
theorem flagParse_heads (args : List (FlagName × String)) :
    ∃ g, flagParse args {} = .ok g ∧
      g.img[0]? = (args.find? (fun a => a.1 == FlagName.img)).map (fun a => TrimSpace a.2) ∧
      g.revelio[0]?
        = (args.find? (fun a => a.1 == FlagName.revelio)).map (fun a => TrimSpace a.2) ∧
      (g.img = [] ↔ ∀ a ∈ args, a.1 ≠ FlagName.img) ∧
      (g.revelio = [] ↔ ∀ a ∈ args, a.1 ≠ FlagName.revelio) := by
  refine ⟨_, flagParse_eq args {}, ?_, ?_, ?_, ?_⟩
  · simp only [List.nil_append]; exact collected_head _ args
  · simp only [List.nil_append]; exact collected_head _ args
  · simp only [List.nil_append]; exact collected_nil _ args
  · simp only [List.nil_append]; exact collected_nil _ args

/-- C8: when the first `-revelio` value, trimmed, is none of `text`, `label`,
`face` (and an `-img` value is given), `main` writes `err` to standard error,
calls no detection function, reads no file, submits no request and ends with
status 0; for each recognised value the whole run of `main` is the one call of
its own detection function on the first collected `-img` value, followed by the
handling of the returned error, and that call is the only one recorded. -/
theorem C8_mode_dispatch (fmtF : Float64 → String) (w : World) (prog : String)
    (args : List (FlagName × String)) (u v : String)
    (himg : args.find? (fun a => a.1 == FlagName.img) = some (FlagName.img, u))
    (hrev : args.find? (fun a => a.1 == FlagName.revelio) = some (FlagName.revelio, v)) :
    ((TrimSpace v ≠ "text" ∧ TrimSpace v ≠ "label" ∧ TrimSpace v ≠ "face") →
      main fmtF w prog args = { status := .exited 0, trace := { stderr := ["err\n"] } }) ∧
    (TrimSpace v = "text" →
      main fmtF w prog args
        = afterRun (runText w (TrimSpace u) { invoked := [(Detector.runText, TrimSpace u)] }) ∧
      (main fmtF w prog args).trace.invoked = [(Detector.runText, TrimSpace u)]) ∧
    (TrimSpace v = "label" →
      main fmtF w prog args
        = afterRun (runLabel fmtF w (TrimSpace u)
            { invoked := [(Detector.runLabel, TrimSpace u)] }) ∧
      (main fmtF w prog args).trace.invoked = [(Detector.runLabel, TrimSpace u)]) ∧
    (TrimSpace v = "face" →
      main fmtF w prog args
        = afterRun (runFace w (TrimSpace u) { invoked := [(Detector.runFace, TrimSpace u)] }) ∧
      (main fmtF w prog args).trace.invoked = [(Detector.runFace, TrimSpace u)]) := by
  obtain ⟨g, hp, hi, hr, -, -⟩ := flagParse_heads args
  rw [himg] at hi
  rw [hrev] at hr
  have hm := main_dispatch fmtF w prog args g _ _ hp hi hr
  simp only [text, label, face] at hm
  refine ⟨?_, ?_, ?_, ?_⟩
  · rintro ⟨h1, h2, h3⟩
    rw [hm, if_neg h1, if_neg h2, if_neg h3]
  · intro h
    rw [hm, if_pos h, afterRun_invoked, runText_invoked]
    exact ⟨rfl, rfl⟩
  · intro h
    have h1 : TrimSpace v ≠ "text" := by rw [h]; decide
    rw [hm, if_neg h1, if_pos h, afterRun_invoked, runLabel_invoked]
    exact ⟨rfl, rfl⟩
  · intro h
    have h1 : TrimSpace v ≠ "text" := by rw [h]; decide
    have h2 : TrimSpace v ≠ "label" := by rw [h]; decide
    rw [hm, if_neg h1, if_neg h2, if_pos h, afterRun_invoked, runFace_invoked]
    exact ⟨rfl, rfl⟩

theorem main_invoked_of_heads (fmtF : Float64 → String) (w : World) (prog : String)
    (args : List (FlagName × String)) (g : Globals) (i0 r0 : String)
    (hp : flagParse args {} = .ok g) (hi : g.img[0]? = some i0)
    (hr : g.revelio[0]? = some r0) :
    (main fmtF w prog args).trace.invoked ≠ [] ∨ (main fmtF w prog args).status = .exited 0 := by
  rw [main_dispatch fmtF w prog args g i0 r0 hp hi hr]
  by_cases h1 : r0 = text
  · left; rw [if_pos h1, afterRun_invoked, runText_invoked]; simp
  · by_cases h2 : r0 = label
    · left; rw [if_neg h1, if_pos h2, afterRun_invoked, runLabel_invoked]; simp
    · by_cases h3 : r0 = face
      · left; rw [if_neg h1, if_neg h2, if_pos h3, afterRun_invoked, runFace_invoked]; simp
      · right; rw [if_neg h1, if_neg h2, if_neg h3]

/-- C9: `Set` appends the trimmed value and returns no error, so `flag.Parse`
succeeds on every sequence of `-img` and `-revelio` occurrences.  When one of
the two flags does not occur, `main` writes the usage text to standard error
and exits with status 1 and nothing else happens; when both occur it never
ends with status 1 without having called a detection function, and both
collected lists have a first element. -/
theorem C9_usage_iff_flag_missing (fmtF : Float64 → String) (w : World) (prog : String)
    (args : List (FlagName × String)) :
    (∀ (out : arrayFlags) (value : String),
      arrayFlags.Set out value = (out ++ [TrimSpace value], none)) ∧
    (∃ g, flagParse args {} = .ok g) ∧
    (((∀ a ∈ args, a.1 ≠ FlagName.img) ∨ (∀ a ∈ args, a.1 ≠ FlagName.revelio)) →
      main fmtF w prog args =
        { status := .exited 1,
          trace := { stderr := ["Usage: go run " ++ prog ++ " <path-to-image> <revelio>\n"] } }) ∧
    (((main fmtF w prog args).status = .exited 1 ∧ (main fmtF w prog args).trace.invoked = []) →
      ((∀ a ∈ args, a.1 ≠ FlagName.img) ∨ (∀ a ∈ args, a.1 ≠ FlagName.revelio))) ∧
    (¬ ((∀ a ∈ args, a.1 ≠ FlagName.img) ∨ (∀ a ∈ args, a.1 ≠ FlagName.revelio)) →
      ∃ g i0 r0, flagParse args {} = .ok g ∧ g.img ≠ [] ∧ g.revelio ≠ [] ∧
        g.img[0]? = some i0 ∧ g.revelio[0]? = some r0) := by
  obtain ⟨g, hp, -, -, hin, hrn⟩ := flagParse_heads args
  have hsafe : ¬ ((∀ a ∈ args, a.1 ≠ FlagName.img) ∨ (∀ a ∈ args, a.1 ≠ FlagName.revelio)) →
      ∃ i0 r0, g.img ≠ [] ∧ g.revelio ≠ [] ∧ g.img[0]? = some i0 ∧ g.revelio[0]? = some r0 := by
    intro h
    rw [← hin, ← hrn, not_or] at h
    obtain ⟨h1, h2⟩ := h
    obtain ⟨i0, is, hi⟩ := List.exists_cons_of_ne_nil h1
    obtain ⟨r0, rs, hr⟩ := List.exists_cons_of_ne_nil h2
    exact ⟨i0, r0, h1, h2, by rw [hi]; simp, by rw [hr]; simp⟩
  refine ⟨fun _ _ => rfl, ⟨g, hp⟩, ?_, ?_, ?_⟩
  · intro h
    rw [← hin, ← hrn] at h
    simp only [main, hp, h, if_true]
  · intro hm
    by_contra h
    obtain ⟨i0, r0, -, -, hi, hr⟩ := hsafe h
    rcases main_invoked_of_heads fmtF w prog args g i0 r0 hp hi hr with h' | h'
    · exact h' hm.2
    · rw [h'] at hm; exact absurd hm.1 (by decide)
  · intro h
    obtain ⟨i0, r0, h1, h2, hi, hr⟩ := hsafe h
    exact ⟨g, i0, r0, hp, h1, h2, hi, hr⟩

theorem main_text (fmtF : Float64 → String) (w : World) (prog : String)
    (args : List (FlagName × String)) (g : Globals) (file : String)
    (hp : flagParse args {} = .ok g) (hi : g.img[0]? = some file)
    (hr : g.revelio[0]? = some "text") :
    main fmtF w prog args = afterRun (runText w file { invoked := [(.runText, file)] }) := by
  have h1 : "text" = text := rfl
  rw [main_dispatch fmtF w prog args g file "text" hp hi hr, if_pos h1]

theorem main_label (fmtF : Float64 → String) (w : World) (prog : String)
    (args : List (FlagName × String)) (g : Globals) (file : String)
    (hp : flagParse args {} = .ok g) (hi : g.img[0]? = some file)
    (hr : g.revelio[0]? = some "label") :
    main fmtF w prog args
      = afterRun (runLabel fmtF w file { invoked := [(.runLabel, file)] }) := by
  have h1 : ¬ "label" = text := by decide
  have h2 : "label" = label := rfl
  rw [main_dispatch fmtF w prog args g file "label" hp hi hr, if_neg h1, if_pos h2]

theorem main_face (fmtF : Float64 → String) (w : World) (prog : String)
    (args : List (FlagName × String)) (g : Globals) (file : String)
    (hp : flagParse args {} = .ok g) (hi : g.img[0]? = some file)
    (hr : g.revelio[0]? = some "face") :
    main fmtF w prog args = afterRun (runFace w file { invoked := [(.runFace, file)] }) := by
  have h1 : ¬ "face" = text := by decide
  have h2 : ¬ "face" = label := by decide
  have h3 : "face" = face := rfl
  rw [main_dispatch fmtF w prog args g file "face" hp hi hr, if_neg h1, if_neg h2, if_pos h3]

/-- C1: when the service answers and the first result has no annotation of the
requested kind, the detection function returns nil after printing exactly its
"not found" line with the file path, and `main` ends with status 0 having
printed only that line. -/
theorem C1_not_found_on_empty (fmtF : Float64 → String) (w : World) (prog : String)
    (args : List (FlagName × String)) (g : Globals) (file : String) (b : List Byte)
    (res : BatchAnnotateImagesResponse) (r0 : AnnotateImageResponse)
    (rest : List AnnotateImageResponse)
    (hc : w.DefaultClient = .ok ()) (hn : w.New = .ok ()) (hr : w.ReadFile file = .ok b)
    (hres : res.Responses = r0 :: rest)
    (hp : flagParse args {} = .ok g) (hi : g.img[0]? = some file) :
    (w.Do ⟨[⟨⟨EncodeToString b⟩, [⟨"TEXT_DETECTION", 0⟩]⟩]⟩ = .ok res →
      r0.TextAnnotations = [] →
      (∀ t, (runText w file t).1 = .returned none ∧
        (runText w file t).2.stdout = t.stdout ++ ["Not found text in: " ++ file ++ "\n"]) ∧
      (g.revelio[0]? = some "text" →
        (main fmtF w prog args).status = .exited 0 ∧
        (main fmtF w prog args).trace.stdout = ["Not found text in: " ++ file ++ "\n"])) ∧
    (w.Do ⟨[⟨⟨EncodeToString b⟩, [⟨"LABEL_DETECTION", 5⟩]⟩]⟩ = .ok res →
      r0.LabelAnnotations = [] →
      (∀ t, (runLabel fmtF w file t).1 = .returned none ∧
        (runLabel fmtF w file t).2.stdout = t.stdout ++ ["Not found label: " ++ file ++ "\n"]) ∧
      (g.revelio[0]? = some "label" →
        (main fmtF w prog args).status = .exited 0 ∧
        (main fmtF w prog args).trace.stdout = ["Not found label: " ++ file ++ "\n"])) ∧
    (w.Do ⟨[⟨⟨EncodeToString b⟩, [⟨"FACE_DETECTION", 5⟩]⟩]⟩ = .ok res →
      r0.FaceAnnotations = [] →
      (∀ t, (runFace w file t).1 = .returned none ∧
        (runFace w file t).2.stdout = t.stdout ++ ["Not found faces: " ++ file ++ "\n"]) ∧
      (g.revelio[0]? = some "face" →
        (main fmtF w prog args).status = .exited 0 ∧
        (main fmtF w prog args).trace.stdout = ["Not found faces: " ++ file ++ "\n"])) := by
  refine ⟨?_, ?_, ?_⟩
  · intro hd he
    have h := fun t => runText_success w file t b res r0 rest hc hn hr hd hres
    simp only [he] at h
    refine ⟨fun t => by rw [h t]; exact ⟨rfl, rfl⟩, fun hr0 => ?_⟩
    rw [main_text fmtF w prog args g file hp hi hr0, h]
    exact ⟨rfl, rfl⟩
  · intro hd he
    have h := fun t => runLabel_success fmtF w file t b res r0 rest hc hn hr hd hres
    simp only [he, if_true] at h
    refine ⟨fun t => by rw [h t]; exact ⟨rfl, rfl⟩, fun hr0 => ?_⟩
    rw [main_label fmtF w prog args g file hp hi hr0, h]
    exact ⟨rfl, rfl⟩
  · intro hd he
    have h := fun t => runFace_success w file t b res r0 rest hc hn hr hd hres
    simp only [he, if_true] at h
    refine ⟨fun t => by rw [h t]; exact ⟨rfl, rfl⟩, fun hr0 => ?_⟩
    rw [main_face fmtF w prog args g file hp hi hr0, h]
    exact ⟨rfl, rfl⟩

theorem found_label_ne_not_found (x y : String) :
    "Found label: " ++ x ≠ "Not found label: " ++ y := by
  intro h
  have h' := congrArg String.data h
  simp only [String.data_append] at h'
  exact absurd (List.head_eq_of_cons_eq h') (by decide)

theorem found_face_ne_not_found (x y : String) :
    "Found Face: " ++ x ≠ "Not found faces: " ++ y := by
  intro h
  have h' := congrArg String.data h
  simp only [String.data_append] at h'
  exact absurd (List.head_eq_of_cons_eq h') (by decide)

/-- C2: when the service answers and the first result has `n > 0` label
annotations, `runLabel` returns nil and prints exactly `n` lines, in list
order, the line of an annotation being built from its description, its score
and the file name; the "not found" line is not among them. -/
theorem C2_runLabel_lines (fmtF : Float64 → String) (w : World) (file : String) (t : Trace)
    (b : List Byte) (res : BatchAnnotateImagesResponse) (r0 : AnnotateImageResponse)
    (rest : List AnnotateImageResponse)
    (hc : w.DefaultClient = .ok ()) (hn : w.New = .ok ()) (hr : w.ReadFile file = .ok b)
    (hd : w.Do ⟨[⟨⟨EncodeToString b⟩, [⟨"LABEL_DETECTION", 5⟩]⟩]⟩ = .ok res)
    (hres : res.Responses = r0 :: rest) (hne : r0.LabelAnnotations ≠ []) :
    (runLabel fmtF w file t).1 = .returned none ∧
    (runLabel fmtF w file t).2.stdout = t.stdout ++ r0.LabelAnnotations.map (fun a =>
      "Found label: " ++ a.Description ++ ", Score: " ++ fmtF a.Score ++ " for " ++ file
        ++ "\n") ∧
    (runLabel fmtF w file t).2.stdout.length = t.stdout.length + r0.LabelAnnotations.length ∧
    "Not found label: " ++ file ++ "\n" ∉ r0.LabelAnnotations.map (fun a =>
      "Found label: " ++ a.Description ++ ", Score: " ++ fmtF a.Score ++ " for " ++ file
        ++ "\n") := by
  have h := runLabel_success fmtF w file t b res r0 rest hc hn hr hd hres
  simp only [hne, if_false] at h
  rw [h]
  refine ⟨rfl, rfl, by simp, ?_⟩
  intro hmem
  obtain ⟨a, -, ha⟩ := List.mem_map.1 hmem
  simp only [String.append_assoc] at ha
  exact found_label_ne_not_found _ _ ha

/-- C3: when the service answers and the first result has `n > 0` face
annotations, `runFace` returns nil and prints exactly `n` lines, in list order,
line `k` (counted from 1) carrying the number `k` and then the anger, joy and
surprise likelihoods of the `k`-th annotation; the "not found" line is not
among them. -/
theorem C3_runFace_lines (w : World) (file : String) (t : Trace)
    (b : List Byte) (res : BatchAnnotateImagesResponse) (r0 : AnnotateImageResponse)
    (rest : List AnnotateImageResponse)
    (hc : w.DefaultClient = .ok ()) (hn : w.New = .ok ()) (hr : w.ReadFile file = .ok b)
    (hd : w.Do ⟨[⟨⟨EncodeToString b⟩, [⟨"FACE_DETECTION", 5⟩]⟩]⟩ = .ok res)
    (hres : res.Responses = r0 :: rest) (hne : r0.FaceAnnotations ≠ []) :
    (runFace w file t).1 = .returned none ∧
    (∃ lines : List String, (runFace w file t).2.stdout = t.stdout ++ lines ∧
      lines.length = r0.FaceAnnotations.length ∧
      (∀ (k : Nat) (hk : k < r0.FaceAnnotations.length),
        lines[k]? = some ("Found Face: " ++ toString (k + 1) ++ ", Anger: "
          ++ (r0.FaceAnnotations.get ⟨k, hk⟩).AngerLikelihood ++ " Joy "
          ++ (r0.FaceAnnotations.get ⟨k, hk⟩).JoyLikelihood ++ " Surprise "
          ++ (r0.FaceAnnotations.get ⟨k, hk⟩).SurpriseLikelihood ++ "\n")) ∧
      "Not found faces: " ++ file ++ "\n" ∉ lines) := by
  have h := runFace_success w file t b res r0 rest hc hn hr hd hres
  simp only [hne, if_false] at h
  rw [h]
  refine ⟨rfl, _, rfl, by simp, ?_, ?_⟩
  · intro k hk
    simp [List.getElem?_map, List.enum, List.getElem?_enumFrom, List.getElem?_eq_getElem hk]
  · intro hmem
    obtain ⟨a, -, ha⟩ := List.mem_map.1 hmem
    simp only [String.append_assoc] at ha
    exact found_face_ne_not_found _ _ ha

/-- C4: when the service answers and the first result has a non-empty list of
text annotations, `runText` returns nil and prints exactly `Found text: `, the
description of the first entry and a newline; a second response with the same
first entry gives the same output, whatever its other entries. -/
theorem C4_runText_first_entry (w w' : World) (file : String) (t : Trace)
    (b b' : List Byte) (res res' : BatchAnnotateImagesResponse)
    (r0 r0' : AnnotateImageResponse) (rest rest' : List AnnotateImageResponse)
    (a0 : EntityAnnotation) (more more' : List EntityAnnotation)
    (hc : w.DefaultClient = .ok ()) (hn : w.New = .ok ()) (hr : w.ReadFile file = .ok b)
    (hd : w.Do ⟨[⟨⟨EncodeToString b⟩, [⟨"TEXT_DETECTION", 0⟩]⟩]⟩ = .ok res)
    (hres : res.Responses = r0 :: rest) (ha : r0.TextAnnotations = a0 :: more)
    (hc' : w'.DefaultClient = .ok ()) (hn' : w'.New = .ok ()) (hr' : w'.ReadFile file = .ok b')
    (hd' : w'.Do ⟨[⟨⟨EncodeToString b'⟩, [⟨"TEXT_DETECTION", 0⟩]⟩]⟩ = .ok res')
    (hres' : res'.Responses = r0' :: rest') (ha' : r0'.TextAnnotations = a0 :: more') :
    (runText w file t).1 = .returned none ∧
    (runText w file t).2.stdout = t.stdout ++ ["Found text: " ++ a0.Description ++ "\n"] ∧
    (runText w' file t).2.stdout = (runText w file t).2.stdout := by
  have h := runText_success w file t b res r0 rest hc hn hr hd hres
  have h' := runText_success w' file t b' res' r0' rest' hc' hn' hr' hd' hres'
  simp only [ha] at h
  simp only [ha'] at h'
  rw [h, h']
  exact ⟨rfl, rfl, rfl⟩

theorem runText_submitted (w : World) (file : String) (t : Trace) (b : List Byte)
    (hr : w.ReadFile file = .ok b) :
    (w.DefaultClient = .ok () → w.New = .ok () →
      (runText w file t).2.submitted
        = t.submitted ++ [⟨[⟨⟨EncodeToString b⟩, [⟨"TEXT_DETECTION", 0⟩]⟩]⟩]) ∧
    ((runText w file t).2.submitted = t.submitted ∨
      (runText w file t).2.submitted
        = t.submitted ++ [⟨[⟨⟨EncodeToString b⟩, [⟨"TEXT_DETECTION", 0⟩]⟩]⟩]) := by
  simp only [runText, hr]
  repeat' split
  all_goals simp_all [Trace.Printf]

theorem runLabel_submitted (fmtF : Float64 → String) (w : World) (file : String) (t : Trace)
    (b : List Byte) (hr : w.ReadFile file = .ok b) :
    (w.DefaultClient = .ok () → w.New = .ok () →
      (runLabel fmtF w file t).2.submitted
        = t.submitted ++ [⟨[⟨⟨EncodeToString b⟩, [⟨"LABEL_DETECTION", 5⟩]⟩]⟩]) ∧
    ((runLabel fmtF w file t).2.submitted = t.submitted ∨
      (runLabel fmtF w file t).2.submitted
        = t.submitted ++ [⟨[⟨⟨EncodeToString b⟩, [⟨"LABEL_DETECTION", 5⟩]⟩]⟩]) := by
  simp only [runLabel, hr, runLabel_loop_eq]
  repeat' split
  all_goals simp_all [Trace.Printf]

theorem runFace_submitted (w : World) (file : String) (t : Trace) (b : List Byte)
    (hr : w.ReadFile file = .ok b) :
    (w.DefaultClient = .ok () → w.New = .ok () →
      (runFace w file t).2.submitted
        = t.submitted ++ [⟨[⟨⟨EncodeToString b⟩, [⟨"FACE_DETECTION", 5⟩]⟩]⟩]) ∧
    ((runFace w file t).2.submitted = t.submitted ∨
      (runFace w file t).2.submitted
        = t.submitted ++ [⟨[⟨⟨EncodeToString b⟩, [⟨"FACE_DETECTION", 5⟩]⟩]⟩]) := by
  simp only [runFace, hr, runFace_loop_eq]
  repeat' split
  all_goals simp_all [Trace.Printf]

theorem afterRun_error (p : Outcome × Trace) (e : GoError) (h : p.1 = .returned (some e)) :
    (afterRun p).status = .exited 1 ∧
    (afterRun p).trace.stderr = p.2.stderr ++ [e.Error ++ "\n"] ∧
    (afterRun p).trace.stdout = p.2.stdout := by
  rcases p with ⟨o, t⟩
  simp only at h
  subst h
  exact ⟨rfl, rfl, rfl⟩

theorem afterRun_status_zero (p : Outcome × Trace) (h : (afterRun p).status.code = 0) :
    p.1 = .returned none := by
  rcases p with ⟨o, t⟩
  rcases o with (_ | e) | _
  · rfl
  · exact absurd h (by simp [afterRun, Status.code])
  · exact absurd h (by simp [afterRun, Status.code])

theorem runText_outcome_indep (w : World) (file : String) (t t' : Trace) :
    (runText w file t).1 = (runText w file t').1 := by
  simp only [runText]
  repeat' split
  all_goals rfl

theorem runLabel_outcome_indep (fmtF : Float64 → String) (w : World) (file : String)
    (t t' : Trace) : (runLabel fmtF w file t).1 = (runLabel fmtF w file t').1 := by
  simp only [runLabel]
  repeat' split
  all_goals rfl

theorem runFace_outcome_indep (w : World) (file : String) (t t' : Trace) :
    (runFace w file t).1 = (runFace w file t').1 := by
  simp only [runFace]
  repeat' split
  all_goals rfl

theorem runText_failure (w : World) (file : String) (t : Trace) (e : GoError)
    (h : w.DefaultClient = .error e ∨ (w.DefaultClient = .ok () ∧ (w.New = .error e ∨
      (w.New = .ok () ∧ (w.ReadFile file = .error e ∨ ∃ b, w.ReadFile file = .ok b ∧
        w.Do ⟨[⟨⟨EncodeToString b⟩, [⟨"TEXT_DETECTION", 0⟩]⟩]⟩ = .error e))))) :
    (runText w file t).1 = .returned (some e) ∧ (runText w file t).2.stdout = t.stdout ∧
      (runText w file t).2.stderr = t.stderr := by
  rcases h with h | ⟨hc, h | ⟨hn, h | ⟨b, hr, hd⟩⟩⟩ <;> simp [runText, *]

theorem runLabel_failure (fmtF : Float64 → String) (w : World) (file : String) (t : Trace)
    (e : GoError)
    (h : w.DefaultClient = .error e ∨ (w.DefaultClient = .ok () ∧ (w.New = .error e ∨
      (w.New = .ok () ∧ (w.ReadFile file = .error e ∨ ∃ b, w.ReadFile file = .ok b ∧
        w.Do ⟨[⟨⟨EncodeToString b⟩, [⟨"LABEL_DETECTION", 5⟩]⟩]⟩ = .error e))))) :
    (runLabel fmtF w file t).1 = .returned (some e) ∧
      (runLabel fmtF w file t).2.stdout = t.stdout ∧
      (runLabel fmtF w file t).2.stderr = t.stderr := by
  rcases h with h | ⟨hc, h | ⟨hn, h | ⟨b, hr, hd⟩⟩⟩ <;> simp [runLabel, *]

theorem runFace_failure (w : World) (file : String) (t : Trace) (e : GoError)
    (h : w.DefaultClient = .error e ∨ (w.DefaultClient = .ok () ∧ (w.New = .error e ∨
      (w.New = .ok () ∧ (w.ReadFile file = .error e ∨ ∃ b, w.ReadFile file = .ok b ∧
        w.Do ⟨[⟨⟨EncodeToString b⟩, [⟨"FACE_DETECTION", 5⟩]⟩]⟩ = .error e))))) :
    (runFace w file t).1 = .returned (some e) ∧ (runFace w file t).2.stdout = t.stdout ∧
      (runFace w file t).2.stderr = t.stderr := by
  rcases h with h | ⟨hc, h | ⟨hn, h | ⟨b, hr, hd⟩⟩⟩ <;> simp [runFace, *]

/-- What a failing file read leaves behind, whatever the credentials. -/
theorem runText_unreadable (w : World) (file : String) (t : Trace) (e : GoError)
    (hr : w.ReadFile file = .error e) :
    (runText w file t).2.submitted = t.submitted ∧
    (∃ e', (runText w file t).1 = .returned (some e')) := by
  simp only [runText, hr]
  repeat' split
  all_goals simp

theorem runLabel_unreadable (fmtF : Float64 → String) (w : World) (file : String) (t : Trace)
    (e : GoError) (hr : w.ReadFile file = .error e) :
    (runLabel fmtF w file t).2.submitted = t.submitted ∧
    (∃ e', (runLabel fmtF w file t).1 = .returned (some e')) := by
  simp only [runLabel, hr]
  repeat' split
  all_goals simp

theorem runFace_unreadable (w : World) (file : String) (t : Trace) (e : GoError)
    (hr : w.ReadFile file = .error e) :
    (runFace w file t).2.submitted = t.submitted ∧
    (∃ e', (runFace w file t).1 = .returned (some e')) := by
  simp only [runFace, hr]
  repeat' split
  all_goals simp

/-- C5: for a readable file, the only batch a detection function submits holds
one request, with the base64 text of the file's bytes as image content and one
feature: `TEXT_DETECTION` with `MaxResults` 0 for `runText`, `LABEL_DETECTION`
with `MaxResults` 5 for `runLabel`, `FACE_DETECTION` with `MaxResults` 5 for
`runFace`; it is submitted whenever client construction succeeds. -/
theorem C5_request_shape (fmtF : Float64 → String) (w : World) (file : String) (t : Trace)
    (b : List Byte) (hr : w.ReadFile file = .ok b) :
    ((w.DefaultClient = .ok () → w.New = .ok () →
        (runText w file t).2.submitted
          = t.submitted ++ [⟨[⟨⟨EncodeToString b⟩, [⟨"TEXT_DETECTION", 0⟩]⟩]⟩]) ∧
      ((runText w file t).2.submitted = t.submitted ∨
        (runText w file t).2.submitted
          = t.submitted ++ [⟨[⟨⟨EncodeToString b⟩, [⟨"TEXT_DETECTION", 0⟩]⟩]⟩])) ∧
    ((w.DefaultClient = .ok () → w.New = .ok () →
        (runLabel fmtF w file t).2.submitted
          = t.submitted ++ [⟨[⟨⟨EncodeToString b⟩, [⟨"LABEL_DETECTION", 5⟩]⟩]⟩]) ∧
      ((runLabel fmtF w file t).2.submitted = t.submitted ∨
        (runLabel fmtF w file t).2.submitted
          = t.submitted ++ [⟨[⟨⟨EncodeToString b⟩, [⟨"LABEL_DETECTION", 5⟩]⟩]⟩])) ∧
    ((w.DefaultClient = .ok () → w.New = .ok () →
        (runFace w file t).2.submitted
          = t.submitted ++ [⟨[⟨⟨EncodeToString b⟩, [⟨"FACE_DETECTION", 5⟩]⟩]⟩]) ∧
      ((runFace w file t).2.submitted = t.submitted ∨
        (runFace w file t).2.submitted
          = t.submitted ++ [⟨[⟨⟨EncodeToString b⟩, [⟨"FACE_DETECTION", 5⟩]⟩]⟩])) :=
  ⟨runText_submitted w file t b hr, runLabel_submitted fmtF w file t b hr,
    runFace_submitted w file t b hr⟩

/-- C6: when a step of a detection function fails with `e` (client
construction, the file read, or the remote call, each reached only after the
steps before it succeeded), the function returns `e` itself and prints
nothing, and `main` writes the text of `e` and a newline to standard error and
exits with status 1; the exit status is 0 only if the detection function
returned nil. -/
theorem C6_errors_propagate (fmtF : Float64 → String) (w : World) (prog : String)
    (args : List (FlagName × String)) (g : Globals) (file : String) (e : GoError)
    (hp : flagParse args {} = .ok g) (hi : g.img[0]? = some file) :
    (((w.DefaultClient = .error e ∨ (w.DefaultClient = .ok () ∧ (w.New = .error e ∨
        (w.New = .ok () ∧ (w.ReadFile file = .error e ∨ ∃ b, w.ReadFile file = .ok b ∧
          w.Do ⟨[⟨⟨EncodeToString b⟩, [⟨"TEXT_DETECTION", 0⟩]⟩]⟩ = .error e))))) →
        (∀ t, (runText w file t).1 = .returned (some e) ∧
          (runText w file t).2.stdout = t.stdout) ∧
        (g.revelio[0]? = some "text" →
          (main fmtF w prog args).status = .exited 1 ∧
          (main fmtF w prog args).trace.stderr = [e.Error ++ "\n"] ∧
          (main fmtF w prog args).trace.stdout = [])) ∧
      (g.revelio[0]? = some "text" → (main fmtF w prog args).status.code = 0 →
        ∀ t, (runText w file t).1 = .returned none)) ∧
    (((w.DefaultClient = .error e ∨ (w.DefaultClient = .ok () ∧ (w.New = .error e ∨
        (w.New = .ok () ∧ (w.ReadFile file = .error e ∨ ∃ b, w.ReadFile file = .ok b ∧
          w.Do ⟨[⟨⟨EncodeToString b⟩, [⟨"LABEL_DETECTION", 5⟩]⟩]⟩ = .error e))))) →
        (∀ t, (runLabel fmtF w file t).1 = .returned (some e) ∧
          (runLabel fmtF w file t).2.stdout = t.stdout) ∧
        (g.revelio[0]? = some "label" →
          (main fmtF w prog args).status = .exited 1 ∧
          (main fmtF w prog args).trace.stderr = [e.Error ++ "\n"] ∧
          (main fmtF w prog args).trace.stdout = [])) ∧
      (g.revelio[0]? = some "label" → (main fmtF w prog args).status.code = 0 →
        ∀ t, (runLabel fmtF w file t).1 = .returned none)) ∧
    (((w.DefaultClient = .error e ∨ (w.DefaultClient = .ok () ∧ (w.New = .error e ∨
        (w.New = .ok () ∧ (w.ReadFile file = .error e ∨ ∃ b, w.ReadFile file = .ok b ∧
          w.Do ⟨[⟨⟨EncodeToString b⟩, [⟨"FACE_DETECTION", 5⟩]⟩]⟩ = .error e))))) →
        (∀ t, (runFace w file t).1 = .returned (some e) ∧
          (runFace w file t).2.stdout = t.stdout) ∧
        (g.revelio[0]? = some "face" →
          (main fmtF w prog args).status = .exited 1 ∧
          (main fmtF w prog args).trace.stderr = [e.Error ++ "\n"] ∧
          (main fmtF w prog args).trace.stdout = [])) ∧
      (g.revelio[0]? = some "face" → (main fmtF w prog args).status.code = 0 →
        ∀ t, (runFace w file t).1 = .returned none)) := by
  refine ⟨⟨?_, ?_⟩, ⟨?_, ?_⟩, ⟨?_, ?_⟩⟩
  · intro h
    refine ⟨fun t => ⟨(runText_failure w file t e h).1, (runText_failure w file t e h).2.1⟩,
      fun hr0 => ?_⟩
    rw [main_text fmtF w prog args g file hp hi hr0]
    obtain ⟨h1, h2, h3⟩ := runText_failure w file { invoked := [(.runText, file)] } e h
    obtain ⟨k1, k2, k3⟩ := afterRun_error _ e h1
    exact ⟨k1, by rw [k2, h3]; rfl, by rw [k3, h2]⟩
  · intro hr0 hz t
    rw [main_text fmtF w prog args g file hp hi hr0] at hz
    rw [runText_outcome_indep w file t _]
    exact afterRun_status_zero _ hz
  · intro h
    refine ⟨fun t => ⟨(runLabel_failure fmtF w file t e h).1,
      (runLabel_failure fmtF w file t e h).2.1⟩, fun hr0 => ?_⟩
    rw [main_label fmtF w prog args g file hp hi hr0]
    obtain ⟨h1, h2, h3⟩ := runLabel_failure fmtF w file { invoked := [(.runLabel, file)] } e h
    obtain ⟨k1, k2, k3⟩ := afterRun_error _ e h1
    exact ⟨k1, by rw [k2, h3]; rfl, by rw [k3, h2]⟩
  · intro hr0 hz t
    rw [main_label fmtF w prog args g file hp hi hr0] at hz
    rw [runLabel_outcome_indep fmtF w file t _]
    exact afterRun_status_zero _ hz
  · intro h
    refine ⟨fun t => ⟨(runFace_failure w file t e h).1, (runFace_failure w file t e h).2.1⟩,
      fun hr0 => ?_⟩
    rw [main_face fmtF w prog args g file hp hi hr0]
    obtain ⟨h1, h2, h3⟩ := runFace_failure w file { invoked := [(.runFace, file)] } e h
    obtain ⟨k1, k2, k3⟩ := afterRun_error _ e h1
    exact ⟨k1, by rw [k2, h3]; rfl, by rw [k3, h2]⟩
  · intro hr0 hz t
    rw [main_face fmtF w prog args g file hp hi hr0] at hz
    rw [runFace_outcome_indep w file t _]
    exact afterRun_status_zero _ hz

/-- C7, as amended: when the file read fails with `e`, no request is submitted
and the process exits with status 1; if client construction succeeded, the text
on standard error is that of `e`. -/
theorem C7_unreadable_file (fmtF : Float64 → String) (w : World) (prog : String)
    (args : List (FlagName × String)) (g : Globals) (file : String) (e : GoError)
    (hp : flagParse args {} = .ok g) (hi : g.img[0]? = some file)
    (hr : w.ReadFile file = .error e) :
    ((∀ t, (runText w file t).2.submitted = t.submitted) ∧
      (g.revelio[0]? = some "text" →
        (main fmtF w prog args).trace.submitted = [] ∧
        (main fmtF w prog args).status = .exited 1 ∧
        (w.DefaultClient = .ok () → w.New = .ok () →
          (main fmtF w prog args).trace.stderr = [e.Error ++ "\n"]))) ∧
    ((∀ t, (runLabel fmtF w file t).2.submitted = t.submitted) ∧
      (g.revelio[0]? = some "label" →
        (main fmtF w prog args).trace.submitted = [] ∧
        (main fmtF w prog args).status = .exited 1 ∧
        (w.DefaultClient = .ok () → w.New = .ok () →
          (main fmtF w prog args).trace.stderr = [e.Error ++ "\n"]))) ∧
    ((∀ t, (runFace w file t).2.submitted = t.submitted) ∧
      (g.revelio[0]? = some "face" →
        (main fmtF w prog args).trace.submitted = [] ∧
        (main fmtF w prog args).status = .exited 1 ∧
        (w.DefaultClient = .ok () → w.New = .ok () →
          (main fmtF w prog args).trace.stderr = [e.Error ++ "\n"]))) := by
  refine ⟨⟨fun t => (runText_unreadable w file t e hr).1, fun hr0 => ?_⟩,
    ⟨fun t => (runLabel_unreadable fmtF w file t e hr).1, fun hr0 => ?_⟩,
    ⟨fun t => (runFace_unreadable w file t e hr).1, fun hr0 => ?_⟩⟩
  · rw [main_text fmtF w prog args g file hp hi hr0]
    obtain ⟨h1, e', h2⟩ := runText_unreadable w file { invoked := [(.runText, file)] } e hr
    refine ⟨by rw [afterRun_submitted, h1], (afterRun_error _ e' h2).1, fun hc hn => ?_⟩
    obtain ⟨k1, -, k3⟩ := runText_failure w file { invoked := [(.runText, file)] } e
      (Or.inr ⟨hc, Or.inr ⟨hn, Or.inl hr⟩⟩)
    rw [(afterRun_error _ e k1).2.1, k3]; rfl
  · rw [main_label fmtF w prog args g file hp hi hr0]
    obtain ⟨h1, e', h2⟩ :=
      runLabel_unreadable fmtF w file { invoked := [(.runLabel, file)] } e hr
    refine ⟨by rw [afterRun_submitted, h1], (afterRun_error _ e' h2).1, fun hc hn => ?_⟩
    obtain ⟨k1, -, k3⟩ := runLabel_failure fmtF w file { invoked := [(.runLabel, file)] } e
      (Or.inr ⟨hc, Or.inr ⟨hn, Or.inl hr⟩⟩)
    rw [(afterRun_error _ e k1).2.1, k3]; rfl
  · rw [main_face fmtF w prog args g file hp hi hr0]
    obtain ⟨h1, e', h2⟩ := runFace_unreadable w file { invoked := [(.runFace, file)] } e hr
    refine ⟨by rw [afterRun_submitted, h1], (afterRun_error _ e' h2).1, fun hc hn => ?_⟩
    obtain ⟨k1, -, k3⟩ := runFace_failure w file { invoked := [(.runFace, file)] } e
      (Or.inr ⟨hc, Or.inr ⟨hn, Or.inl hr⟩⟩)
    rw [(afterRun_error _ e k1).2.1, k3]; rfl

/-- C10: the image content a detection function puts in its request for a file
with bytes `b` decodes, with the standard base64 decoder, to `b`. -/
theorem C10_content_roundtrip (fmtF : Float64 → String) (w : World) (file : String)
    (t : Trace) (b : List Byte)
    (hc : w.DefaultClient = .ok ()) (hn : w.New = .ok ()) (hr : w.ReadFile file = .ok b) :
    (∃ req, (runText w file t).2.submitted = t.submitted ++ [⟨[req]⟩] ∧
      DecodeString req.Image.Content = some b) ∧
    (∃ req, (runLabel fmtF w file t).2.submitted = t.submitted ++ [⟨[req]⟩] ∧
      DecodeString req.Image.Content = some b) ∧
    (∃ req, (runFace w file t).2.submitted = t.submitted ++ [⟨[req]⟩] ∧
      DecodeString req.Image.Content = some b) :=
  ⟨⟨_, (runText_submitted w file t b hr).1 hc hn, DecodeString_EncodeToString b⟩,
    ⟨_, (runLabel_submitted fmtF w file t b hr).1 hc hn, DecodeString_EncodeToString b⟩,
    ⟨_, (runFace_submitted w file t b hr).1 hc hn, DecodeString_EncodeToString b⟩⟩

/-! ## Instances of the theorems -/

/-- Text mode on a response without annotations: one "not found" line, status 0. -/
theorem C1_not_found_on_empty_witness :
    (main fmtBits (worldWith ⟨[⟨[], [], []⟩]⟩) "revelio"
        [(.img, "cat.png"), (.revelio, "text")]).status = .exited 0 ∧
    (main fmtBits (worldWith ⟨[⟨[], [], []⟩]⟩) "revelio"
        [(.img, "cat.png"), (.revelio, "text")]).trace.stdout
      = ["Not found text in: cat.png\n"] :=
  ((C1_not_found_on_empty fmtBits (worldWith ⟨[⟨[], [], []⟩]⟩) "revelio"
    [(.img, "cat.png"), (.revelio, "text")] ⟨["cat.png"], ["text"]⟩ "cat.png"
    [137, 80, 78, 71] ⟨[⟨[], [], []⟩]⟩ ⟨[], [], []⟩ [] rfl rfl rfl rfl rfl rfl).1 rfl rfl).2 rfl

/-- Two labels give two lines, in order. -/
theorem C2_runLabel_lines_witness :
    (runLabel fmtBits (worldWith sampleResponse) "cat.png" {}).1 = .returned none ∧
    (runLabel fmtBits (worldWith sampleResponse) "cat.png" {}).2.stdout
      = ["Found label: cat, Score: 5 for cat.png\n", "Found label: pet, Score: 6 for cat.png\n"] :=
  have h := C2_runLabel_lines fmtBits (worldWith sampleResponse) "cat.png" {} [137, 80, 78, 71]
    sampleResponse ⟨[⟨"cat", 5⟩, ⟨"pet", 6⟩], [⟨"hello world", 0⟩, ⟨"hello", 0⟩],
      [⟨"UNLIKELY", "LIKELY", "POSSIBLE"⟩, ⟨"VERY_UNLIKELY", "VERY_LIKELY", "UNLIKELY"⟩]⟩ []
    rfl rfl rfl rfl rfl (by decide)
  ⟨h.1, h.2.1⟩

/-- Two faces give two lines. -/
theorem C3_runFace_lines_witness :
    (runFace (worldWith sampleResponse) "cat.png" {}).1 = .returned none ∧
    (runFace (worldWith sampleResponse) "cat.png" {}).2.stdout.length = 2 := by
  obtain ⟨h1, lines, h2, h3, -, -⟩ := C3_runFace_lines (worldWith sampleResponse) "cat.png" {}
    [137, 80, 78, 71] sampleResponse
    ⟨[⟨"cat", 5⟩, ⟨"pet", 6⟩], [⟨"hello world", 0⟩, ⟨"hello", 0⟩],
      [⟨"UNLIKELY", "LIKELY", "POSSIBLE"⟩, ⟨"VERY_UNLIKELY", "VERY_LIKELY", "UNLIKELY"⟩]⟩ []
    rfl rfl rfl rfl rfl (by decide)
  refine ⟨h1, ?_⟩
  rw [h2, List.length_append, h3]
  rfl

/-- Only the first text entry is printed. -/
theorem C4_runText_first_entry_witness :
    (runText (worldWith sampleResponse) "cat.png" {}).2.stdout = ["Found text: hello world\n"] ∧
    (runText (worldWith ⟨[⟨[], [⟨"hello world", 0⟩], []⟩]⟩) "cat.png" {}).2.stdout
      = (runText (worldWith sampleResponse) "cat.png" {}).2.stdout :=
  have h := C4_runText_first_entry (worldWith sampleResponse)
    (worldWith ⟨[⟨[], [⟨"hello world", 0⟩], []⟩]⟩) "cat.png" {}
    [137, 80, 78, 71] [137, 80, 78, 71] sampleResponse ⟨[⟨[], [⟨"hello world", 0⟩], []⟩]⟩
    ⟨[⟨"cat", 5⟩, ⟨"pet", 6⟩], [⟨"hello world", 0⟩, ⟨"hello", 0⟩],
      [⟨"UNLIKELY", "LIKELY", "POSSIBLE"⟩, ⟨"VERY_UNLIKELY", "VERY_LIKELY", "UNLIKELY"⟩]⟩
    ⟨[], [⟨"hello world", 0⟩], []⟩ [] [] ⟨"hello world", 0⟩ [⟨"hello", 0⟩] []
    rfl rfl rfl rfl rfl rfl rfl rfl rfl rfl rfl rfl
  ⟨h.2.1, h.2.2⟩

/-- The batch `runLabel` submits for a four-byte file. -/
theorem C5_request_shape_witness :
    (runLabel fmtBits (worldWith sampleResponse) "cat.png" {}).2.submitted
      = [⟨[⟨⟨"iVBORw=="⟩, [⟨"LABEL_DETECTION", 5⟩]⟩]⟩] :=
  (C5_request_shape fmtBits (worldWith sampleResponse) "cat.png" {} [137, 80, 78, 71]
    rfl).2.1.1 rfl rfl

/-- Without credentials the credential error is reported and the status is 1. -/
theorem C6_errors_propagate_witness :
    (main fmtBits worldNoCredentials "revelio"
        [(.img, "cat.png"), (.revelio, "face")]).status = .exited 1 ∧
    (main fmtBits worldNoCredentials "revelio"
        [(.img, "cat.png"), (.revelio, "face")]).trace.stderr
      = ["google: could not find default credentials\n"] :=
  have h := ((C6_errors_propagate fmtBits worldNoCredentials "revelio"
    [(.img, "cat.png"), (.revelio, "face")] ⟨["cat.png"], ["face"]⟩ "cat.png"
    ⟨"google: could not find default credentials"⟩ rfl rfl).2.2.1 (Or.inl rfl)).2 rfl
  ⟨h.1, h.2.1⟩

/-- C7 as stated fails: with no credentials and a missing file, the file read
would fail, yet the text on standard error is the credential error, in each of
the three modes. -/
theorem C7_counterexample :
    worldNoCredentials.ReadFile "missing.png"
      = .error ⟨"open missing.png: no such file or directory"⟩ ∧
    (main fmtBits worldNoCredentials "revelio"
        [(.img, "missing.png"), (.revelio, "text")]).trace.stderr
      = ["google: could not find default credentials\n"] ∧
    (main fmtBits worldNoCredentials "revelio"
        [(.img, "missing.png"), (.revelio, "label")]).trace.stderr
      = ["google: could not find default credentials\n"] ∧
    (main fmtBits worldNoCredentials "revelio"
        [(.img, "missing.png"), (.revelio, "face")]).trace.stderr
      = ["google: could not find default credentials\n"] ∧
    (main fmtBits worldNoCredentials "revelio"
        [(.img, "missing.png"), (.revelio, "text")]).trace.stderr
      ≠ ["open missing.png: no such file or directory\n"] := by
  refine ⟨rfl, ?_, ?_, ?_, ?_⟩ <;> decide

/-- With credentials and a missing file the read error is reported. -/
theorem C7_unreadable_file_witness :
    (main fmtBits worldMissingFile "revelio"
        [(.img, "missing.png"), (.revelio, "text")]).trace.submitted = [] ∧
    (main fmtBits worldMissingFile "revelio"
        [(.img, "missing.png"), (.revelio, "text")]).status = .exited 1 ∧
    (main fmtBits worldMissingFile "revelio"
        [(.img, "missing.png"), (.revelio, "text")]).trace.stderr
      = ["open missing.png: no such file or directory\n"] :=
  have h := (C7_unreadable_file fmtBits worldMissingFile "revelio"
    [(.img, "missing.png"), (.revelio, "text")] ⟨["missing.png"], ["text"]⟩ "missing.png"
    ⟨"open missing.png: no such file or directory"⟩ rfl rfl rfl).1.2 rfl
  ⟨h.1, h.2.1, h.2.2 rfl rfl⟩

/-- An unknown mode prints `err` and nothing else happens; the mode `text`
runs `runText` on the trimmed path: one read, one batch, one printed line. -/
theorem C8_mode_dispatch_witness :
    main fmtBits (worldWith sampleResponse) "revelio" [(.img, "cat.png"), (.revelio, " bogus ")]
      = { status := .exited 0, trace := { stderr := ["err\n"] } } ∧
    main fmtBits (worldWith sampleResponse) "revelio"
        [(.img, " cat.png "), (.img, "dog.png"), (.revelio, "text\n"), (.revelio, "face")]
      = { status := .exited 0,
          trace :=
            { stdout := ["Found text: hello world\n"],
              reads := ["cat.png"],
              submitted := [⟨[⟨⟨"iVBORw=="⟩, [⟨"TEXT_DETECTION", 0⟩]⟩]⟩],
              invoked := [(Detector.runText, "cat.png")] } } :=
  ⟨(C8_mode_dispatch fmtBits (worldWith sampleResponse) "revelio"
      [(.img, "cat.png"), (.revelio, " bogus ")] "cat.png" " bogus " rfl rfl).1 (by decide),
    (((C8_mode_dispatch fmtBits (worldWith sampleResponse) "revelio"
      [(.img, " cat.png "), (.img, "dog.png"), (.revelio, "text\n"), (.revelio, "face")]
      " cat.png " "text\n" rfl rfl).2.1 (by decide)).1).trans (by decide)⟩

/-- The content `runFace` sends decodes to the bytes of the file. -/
theorem C10_content_roundtrip_witness :
    ∃ req, (runFace (worldWith sampleResponse) "cat.png" {}).2.submitted = [⟨[req]⟩] ∧
      DecodeString req.Image.Content = some [137, 80, 78, 71] :=
  (C10_content_roundtrip fmtBits (worldWith sampleResponse) "cat.png" {} [137, 80, 78, 71]
    rfl rfl rfl).2.2

end Revelio
